import Mathlib

/-!
Verification of the request-dispatch and watch-session subsystem of the
cisco-kube-client library (lib/endpoints.js, lib/watch-emitter.js,
lib/auth.js, lib/errors.js), via a shallow embedding of the relevant
JavaScript functions into Lean.

JavaScript conventions used throughout the embedding:
* a possibly-absent value (undefined / null) is an Option;
* string truthiness: undefined, null and the empty string are falsy;
* reading a property of undefined / null throws a TypeError;
* reading an undeclared identifier throws a ReferenceError.
-/

/-! ## Generic JavaScript value modelling -/

/-- A runtime error raised by evaluating JavaScript code (as opposed to an
error value constructed and returned or thrown deliberately). -/
inductive RuntimeErr where
  /-- TypeError: property access on undefined or null. -/
  | typeError : RuntimeErr
  /-- ReferenceError: read of an undeclared identifier. -/
  | refError : RuntimeErr
deriving DecidableEq, Repr

/-- A transport-level error object handed to callbacks by the request
library (an instance of Error).  Its "code" property (e.g. "ENOTFOUND",
"ETIMEDOUT") may be absent. -/
structure JsErr where
  code : Option String
deriving DecidableEq, Repr

/-- The body field of an HTTP response: a string, an object (which may carry
its own "statusCode" property, as Kubernetes Status objects do), or
absent. -/
inductive JsBody where
  | undef : JsBody
  | str (s : String) : JsBody
  | obj (statusCode : Option Int) : JsBody
deriving DecidableEq, Repr

/-- JavaScript truthiness of a response body. -/
def JsBody.truthy : JsBody → Bool
  | .undef => false
  | .str s => !(s == "")
  | .obj _ => true

/-- Property access body.statusCode for a truthy body (a string has no
statusCode property, so the access yields undefined). -/
def JsBody.getStatusCode : JsBody → Option Int
  | .undef => none
  | .str _ => none
  | .obj sc => sc

/-- Truthiness of an optional string (undefined, null and "" are falsy). -/
def jsTruthyStr : Option String → Bool
  | none => false
  | some s => !(s == "")

/-! ## lib/watch-emitter.js — the data handler -/

/-- The metadata sub-object of a watched Kubernetes resource, as read by the
data handler of WatchEmitter.prototype.start (lib/watch-emitter.js
lines 150-192): only "name" and "resourceVersion" are consulted. -/
structure Metadata where
  name : Option String
  resourceVersion : Option String
deriving DecidableEq, Repr

/-- A watched resource object; its "metadata" property may be absent. -/
structure KObject where
  metadata : Option Metadata
deriving DecidableEq, Repr

/-- A decoded watch frame (the result of JSON.parse on the accumulated
buffer): updateData.type and updateData.object, each possibly absent. -/
structure WatchFrame where
  type : Option String
  object : Option KObject
deriving DecidableEq, Repr

/-- An event emitted by the WatchEmitter data handler. -/
inductive DataEvt where
  | create (o : Option KObject) : DataEvt
  | update (o : Option KObject) : DataEvt
  | delete (o : Option KObject) : DataEvt
  /-- emit("error", payload) from inside the data handler. -/
  | errorEvt (o : Option KObject) : DataEvt
deriving DecidableEq, Repr

/-- The resource-version update performed after each emit
(lib/watch-emitter.js lines 161-162, 171-172, 181-182):

  self.options.qs.resourceVersion =
      updateData.object.metadata.resourceVersion || self.options.qs.resourceVersion;

If "object" or "metadata" is absent the property chain throws a TypeError;
the throw happens after the emit and is swallowed by the catch block at
line 193 (whose test "! error instanceof SyntaxError" parses as
"(!error) instanceof SyntaxError" and is always false), so the tracked
version is left unchanged.  Otherwise the JavaScript "||" keeps the old
version whenever the resourceVersion field is absent or the empty
string. -/
def advanceRV (o : Option KObject) (tracked : Option String) : Option String :=
  match o with
  | none => tracked
  | some obj =>
    match obj.metadata with
    | none => tracked
    | some m =>
      match m.resourceVersion with
      | none => tracked
      | some rv => if rv == "" then tracked else some rv

/-- The switch statement of the data handler (lib/watch-emitter.js
lines 153-188) applied to one successfully parsed frame, returning the
emitted events and the new tracked resource version.

The default branch (lines 184-187) executes "self.log.error(error)" where
no identifier "error" is in scope; the resulting ReferenceError aborts the
branch before "self.emit('error', updateData.object)" runs, and is then
swallowed by the catch block at line 193, so no event is emitted for an
unrecognized frame type. -/
def onFrame (tracked : Option String) (f : WatchFrame) : List DataEvt × Option String :=
  match f.type with
  | some t =>
    if t == "ADDED" then ([.create f.object], advanceRV f.object tracked)
    else if t == "MODIFIED" then ([.update f.object], advanceRV f.object tracked)
    else if t == "DELETED" then ([.delete f.object], advanceRV f.object tracked)
    else ([], tracked)
  | none => ([], tracked)

/-- The per-connection state touched by the data handler: the "started"
flag of the emitter, the pending partial-frame buffer (a Buffer in the
source, modelled as the accumulated text), and the tracked
options.qs.resourceVersion. -/
structure WatchState where
  started : Bool
  buffer : Option String
  resourceVersion : Option String
deriving DecidableEq, Repr

/-- Buffer accumulation at lib/watch-emitter.js lines 143-147: the incoming
chunk is appended to the pending buffer if one exists, else becomes the
buffer. -/
def concatBuf : Option String → String → String
  | none, d => d
  | some b, d => b ++ d

/-- The data handler of WatchEmitter.prototype.start (lib/watch-emitter.js
lines 141-200).  JSON.parse is the external collaborator, modelled as a
function returning none when it throws a SyntaxError.  On a parse failure
the catch block swallows the SyntaxError, leaving the buffer as
accumulated; on success the buffer is cleared (line 151) and the frame is
classified by the switch. -/
def watchOnData (parse : String → Option WatchFrame) (st : WatchState)
    (data : String) : WatchState × List DataEvt :=
  let buf := concatBuf st.buffer data
  match parse buf with
  | none => ({ st with buffer := some buf }, [])
  | some f =>
    let r := onFrame st.resourceVersion f
    ({ st with buffer := none, resourceVersion := r.2 }, r.1)

/-- Numeric value of a resource-version string (decimal digit fold), used
to compare versions ("earlier" / "later") when stating monotonicity
properties. -/
def rvNum (s : String) : Nat :=
  s.data.foldl (fun n c => n * 10 + (c.toNat - 48)) 0

/-- Folding the data handler classification over a sequence of decoded
frames, tracking only the resource version. -/
def processFrames (tracked : Option String) (fs : List WatchFrame) : Option String :=
  fs.foldl (fun t f => (onFrame t f).2) tracked

/-! ## lib/watch-emitter.js — the socket error handler -/

/-- The timeout test of the error handler (lib/watch-emitter.js lines 120
and 124): error.code equals "ESOCKETTIMEDOUT" or "ETIMEDOUT". -/
def isTimeoutCode : Option String → Bool
  | none => false
  | some c => c == "ESOCKETTIMEDOUT" || c == "ETIMEDOUT"

/-- What the error handler does with one socket error. -/
inductive RetryAction where
  /-- self.start(budget, true): reconnect with the given remaining budget. -/
  | reconnect (budget : Option Int) : RetryAction
  /-- self.emit("error", error): surface the error, no reconnect. -/
  | emitError : RetryAction
deriving DecidableEq, Repr

/-- The error handler of WatchEmitter.prototype.start (lib/watch-emitter.js
lines 118-137).  retryCount is null (unlimited) or a number; a timeout
with a null budget reconnects with a null budget, a timeout with a
positive budget reconnects with the budget decremented ("--retryCount"),
and anything else emits the error. -/
def onWatchError (retryCount : Option Int) (e : JsErr) : RetryAction :=
  match retryCount with
  | none => if isTimeoutCode e.code then .reconnect none else .emitError
  | some n =>
    if 0 < n && isTimeoutCode e.code then .reconnect (some (n - 1))
    else .emitError

/-- Running the error handler over the consecutive failures of successive
watch connections: returns how many reconnects were attempted and whether
an "error" event was emitted (after which the session stops
reconnecting). -/
def runWatchErrors : Option Int → List JsErr → Nat × Bool
  | _, [] => (0, false)
  | rc, e :: es =>
    match onWatchError rc e with
    | .reconnect rc2 =>
      let r := runWatchErrors rc2 es
      (r.1 + 1, r.2)
    | .emitError => (0, true)

/-! ## lib/errors.js — GetError -/

/-- The typed error value produced by the errors module: either the
transport error returned unchanged (branch "error instanceof Error" at
lib/errors.js line 28), or an HttpError / per-status specialization
carrying a status code and the response body as message. -/
inductive ClassifiedError where
  | transport (code : Option String) : ClassifiedError
  | http (statusCode : Int) (body : JsBody) : ClassifiedError
deriving DecidableEq, Repr

/-- The statusCode property of a classified error (a raw transport error
carries none, so reading it yields undefined). -/
def ClassifiedError.statusCode : ClassifiedError → Option Int
  | .transport _ => none
  | .http sc _ => some sc

/-- The HTTP response object as consumed by GetError: its statusCode
property (absent on some streaming responses) and its body. -/
structure HttpResp' where
  statusCode : Option Int
  body : JsBody
deriving DecidableEq, Repr

/-- The JavaScript comparison "x > 399" where x may be undefined
(undefined > 399 is false, since NaN comparisons are false). -/
def jsGT399 : Option Int → Bool
  | none => false
  | some n => 399 < n

/-- The errors module entry point GetError (lib/errors.js lines 27-43).

  function GetError(error, response) {
      if (error instanceof Error) return error;
      else if (response.statusCode > 399) ...
      else if (response.body && response.body.statusCode > 399) ...
      else return null;
  }

When error is null (not an Error instance) and response is null or absent,
the property read response.statusCode throws a TypeError; the Except layer
records that runtime failure. -/
def GetError (error : Option JsErr) (response : Option HttpResp') :
    Except RuntimeErr (Option ClassifiedError) :=
  match error with
  | some e => .ok (some (.transport e.code))
  | none =>
    match response with
    | none => .error .typeError
    | some r =>
      if jsGT399 r.statusCode then
        .ok (some (.http (r.statusCode.getD 0) r.body))
      else if r.body.truthy && jsGT399 r.body.getStatusCode then
        .ok (some (.http ((r.body.getStatusCode).getD 0) r.body))
      else .ok none

/-! ## requestAsync (lib/endpoints.js lines 1754-1765, lib/auth.js
lines 134-145) -/

/-- A rejection of the requestAsync promise: either the classified error,
or a runtime crash of the classification itself. -/
inductive ReqFailure where
  | classified (e : ClassifiedError) : ReqFailure
  | crashed (e : RuntimeErr) : ReqFailure
deriving DecidableEq, Repr

/-- The statusCode read off a requestAsync rejection value (a crash value
is a TypeError object without a statusCode property). -/
def ReqFailure.statusCode : ReqFailure → Option Int
  | .classified e => e.statusCode
  | .crashed _ => none

/-- The pair of arguments the request library passes to its callback: a
transport error or null, and a response or undefined. -/
abbrev NetPair := Option JsErr × Option HttpResp'

/-- requestAsync: wraps one network call in a promise; the callback runs
errors(error, response) and rejects with the classified error, else
resolves with the response (lib/endpoints.js lines 1754-1765; the copy in
lib/auth.js lines 134-145 is identical). -/
def requestAsync (net : NetPair) : Except ReqFailure (Option HttpResp') :=
  match GetError net.1 net.2 with
  | .error rt => .error (.crashed rt)
  | .ok (some ce) => .error (.classified ce)
  | .ok none => .ok net.2

/-! ## lib/auth.js — parseToken -/

/-- The outcome of parseToken: the extracted token string, or a
TokenParseError carrying the header that was being parsed (null when the
header was missing). -/
inductive TokenResult where
  | ok (token : String) : TokenResult
  /-- TokenParseError(header, cause). -/
  | parseErr (header : Option String) : TokenResult
deriving DecidableEq, Repr

/-- JavaScript String.prototype.split with a one-character separator,
modelled on the character list of the string ("a##b".split("#") is
["a", "", "b"], "".split("#") is [""]). -/
def jsSplitChar (sep : Char) : List Char → List (List Char)
  | [] => [[]]
  | c :: cs =>
    let r := jsSplitChar sep cs
    if c == sep then [] :: r
    else
      match r with
      | [] => [[c]]
      | h :: t => (c :: h) :: t

/-- url.parse(s).hash — the fragment of a URL string, from the first "#"
character (inclusive), or null when the string has no "#". -/
def urlHash (loc : List Char) : Option (List Char) :=
  match jsSplitChar '#' loc with
  | [] => none
  | [_] => none
  | _ :: rest => some ('#' :: List.intercalate ['#'] rest)

/-- The token extraction inside the try block of parseToken (lib/auth.js
lines 115-116):

  url.parse(response.headers.location).hash
     .split("#")[1].split("&")[0].split("=")[1]

Result: .error when a step throws a TypeError (method call on null or
undefined), .ok none when the final index is out of range (the variable
token is then undefined, which does not throw), .ok (some t) otherwise. -/
def extractToken (loc : String) : Except RuntimeErr (Option (List Char)) :=
  match urlHash loc.toList with
  | none => .error .typeError
  | some h =>
    match (jsSplitChar '#' h).get? 1 with
    | none => .error .typeError
    | some seg =>
      let first := (jsSplitChar '&' seg).headD []
      .ok ((jsSplitChar '=' first).get? 1)

/-- The headers object of the OAuth challenge response, as consumed by
parseToken: only the location header is read. -/
structure AuthHeaders where
  location : Option String
deriving DecidableEq, Repr

/-- The OAuth challenge response: statusCode and body feed GetError,
headers feed parseToken. -/
structure AuthResp where
  statusCode : Option Int
  body : JsBody
  headers : Option AuthHeaders
deriving DecidableEq, Repr

/-- parseToken (lib/auth.js lines 108-126): missing or falsy headers /
location throw TokenParseError(null, ReferenceError); a throw inside the
extraction chain yields TokenParseError(location, error); an extracted
token that is not a string (undefined) or shorter than 10 characters
yields TokenParseError(location, TypeError); otherwise the token is
returned. -/
def parseToken (response : AuthResp) : TokenResult :=
  match response.headers with
  | none => .parseErr none
  | some h =>
    match h.location with
    | none => .parseErr none
    | some loc =>
      if loc == "" then .parseErr none
      else
        match extractToken loc with
        | .error _ => .parseErr (some loc)
        | .ok none => .parseErr (some loc)
        | .ok (some token) =>
          if token.length < 10 then .parseErr (some loc)
          else .ok (String.mk token)

/-! ## lib/auth.js — getNewToken and Authenticate -/

/-- The user / pass credential pair. -/
structure Creds where
  user : String
  pass : String
deriving DecidableEq, Repr

/-- The slice of the ClientConfig consulted by the auth module: the mutable
token, the credentials (null once cleared), the host URL, and the two
authOptions flags read by getNewToken. -/
structure AuthConfig where
  token : Option String
  auth : Option Creds
  host : String
  allowUnsafe : Bool
  preserveAuthFalse : Bool
deriving DecidableEq, Repr

/-- A rejection of the authentication promise. -/
inductive AuthError where
  /-- errors.ClientError with the given message. -/
  | clientError (message : String) : AuthError
  /-- The classified HTTP or transport error from the challenge exchange;
  message401 is true when the status was 401 (the code rewrites the
  message to "invalid user credentials" in that case). -/
  | httpError (e : ClassifiedError) (message401 : Bool) : AuthError
  /-- errors.TokenParseError with the header that was parsed. -/
  | tokenParseError (header : Option String) : AuthError
  /-- A runtime crash inside the promise chain. -/
  | crashed (e : RuntimeErr) : AuthError
deriving DecidableEq, Repr

/-- Settlement of the authentication promise. -/
inductive AuthResult where
  | resolved (c : AuthConfig) : AuthResult
  | rejected (e : AuthError) : AuthResult
deriving DecidableEq, Repr

/-- Modelled from the spec: the errors module's throw helper in the version
the auth module is written against, which is missing from the source tree
(lib/errors.js holds an older five-parameter variant matching the first
copy of lib/endpoints.js; lib/auth.js and the second copy call it as
errors.throw(log, level, error, data, message, reject)).  Per the spec,
the error is sent to the log at the given severity and then propagated:
applied to a reject continuation it rejects the calling promise with the
error, with no continuation it rethrows, and propagation never alters the
error value.  The embedding keeps only the propagation (logging has no
observable effect on the claims). -/
def errorsThrowReject (e : AuthError) : AuthResult := .rejected e

/-- getNewToken (lib/auth.js lines 52-96), parameterized by the network
outcome of the challenge request.  Returns the number of network requests
issued together with the promise settlement.

Order of operations in the source: (1) resolve immediately when the
config already holds a truthy token; (2) refuse when authOptions.allowUnsafe
is falsy and the host does not match the regular expression matching an
initial "https://" — via errors.throw with a Promise.reject continuation,
before any network activity; (3) build the challenge options, clear the
credentials when authOptions.preserveAuth === false, and issue the request;
classify the response, extract the token with parseToken (a throw becomes
a rejection via the final catch), and store it in the config. -/
def getNewToken (net : Option JsErr × Option AuthResp) (config : AuthConfig) :
    Nat × AuthResult :=
  if jsTruthyStr config.token then (0, .resolved config)
  else if !config.allowUnsafe
      && !(("https://".toList).isPrefixOf config.host.toList) then
    (0, errorsThrowReject (.clientError "refusing to authenticate over http"))
  else
    let config2 :=
      if config.preserveAuthFalse then { config with auth := none } else config
    let respPart : Option HttpResp' := net.2.map (fun r => ⟨r.statusCode, r.body⟩)
    match GetError net.1 respPart with
    | .error rt => (1, .rejected (.crashed rt))
    | .ok (some ce) =>
      -- requestAsync rejected; the final catch logs and rethrows.  (The
      -- errors(null, response) re-check inside the then-handler at
      -- lines 77-84 is unreachable for a rejected request, and for a
      -- resolved one it returns null again, so only the 401 message
      -- rewrite marker is recorded here.)
      (1, .rejected (.httpError ce (ce.statusCode == some 401)))
    | .ok none =>
      match net.2 with
      | none =>
        -- Unreachable: GetError only returns ok for a present response
        -- when the error argument is null.
        (1, .rejected (.crashed .typeError))
      | some resp =>
        match parseToken resp with
        | .ok t => (1, .resolved { config2 with token := some t })
        | .parseErr h => (1, .rejected (.tokenParseError h))

/-- The auth module entry point Authenticate (lib/auth.js lines 30-39):
flush clears a non-null token first; with no credentials configured the
config is resolved unchanged (absence of credentials is not an error at
this layer), otherwise getNewToken runs. -/
def Authenticate (net : Option JsErr × Option AuthResp) (config : AuthConfig)
    (flush : Bool) : Nat × AuthResult :=
  let config1 :=
    if flush && config.token.isSome then { config with token := none } else config
  match config1.auth with
  | none => (0, .resolved config1)
  | some _ => getNewToken net config1

/-! ## lib/endpoints.js — baseRequest (second copy, lines 1146-1193) -/

/-- The string JavaScript produces for "Bearer " + config.token (a null
token is stringified as "null"). -/
def jsTokenStr : Option String → String
  | some t => t
  | none => "null"

/-- A rejection of the dispatch chain of baseRequest: a (possibly retried)
main-request failure, a rejection of the re-authentication performed on
the 401 path (which propagates out of the then-chain with no retry), or a
runtime crash of the retry's header attach (the TypeError thrown by
opts.headers.Authorization when opts.headers is undefined). -/
inductive DispFailure where
  | req (f : ReqFailure) : DispFailure
  | reauth (e : AuthError) : DispFailure
  | attachCrash (e : RuntimeErr) : DispFailure
deriving DecidableEq, Repr

/-- Lift a requestAsync settlement into the dispatch chain. -/
def liftReq : Except ReqFailure (Option HttpResp') → Except DispFailure (Option HttpResp')
  | .ok r => .ok r
  | .error f => .error (.req f)

/-- The observable outcome of one baseRequest dispatch: how many times the
main request was sent, the Authorization header attached for the retry (if
one happened), and the settlement of the request chain of lines 1151-1175
(body decoding and the outer logging catch of lines 1176-1191 sit above
this and do not change which attempts were made). -/
structure DispatchRec where
  attempts : Nat
  retriedAuthHeader : Option String
  result : Except DispFailure (Option HttpResp')
deriving Repr

/-- Whether the options object parseOptions (second copy) returns carries a
headers object.  The final merge (lib/endpoints.js lines 1678-1684) adds
url and auth (with the bearer token) but no headers; a headers object is
present only when the Content-Type merge for PATCH methods ran
(lines 1662-1669) or the caller / endpoint options that flowed in through
the merges at lines 1153-1161 already held one. -/
def parseOptionsHasHeaders (method : String) (optsHadHeaders : Bool) : Bool :=
  optsHadHeaders || method == "PATCH"

/-- The dispatch core of baseRequest (lib/endpoints.js lines 1151-1175),
parameterized by the network outcomes of the (up to two) main-request
attempts and of the challenge exchange a re-authentication would perform,
by the request method, and by whether the caller / endpoint options
supplied a headers object.

  return requestAsync(opts).catch(function (error) {
      if (error.statusCode == 401) {
          return self.client.authenticate(true).then(function (config) {
              opts.headers.Authorization = "Bearer " + config.token;
              return requestAsync(opts);
          });
      } else { throw error; }
  });

A first rejection whose statusCode is exactly 401 triggers
authenticate(true) — the auth module with the token flushed.  When that
resolves, the code assigns opts.headers.Authorization: if the opts built
by parseOptions carry a headers object the fresh bearer token is attached
and one retry runs, whose outcome is returned as-is; but when opts.headers
is undefined (every non-PATCH request without caller-supplied headers,
since parseOptions attaches the token via auth.bearer and never adds a
headers object itself) the property write throws a TypeError that rejects
the then-chain — no retry runs and the TypeError propagates to the outer
logging catch at lines 1183-1191 instead of the original 401.  A rejection
of the re-authentication itself propagates with no retry; any other first
rejection is rethrown with no retry. -/
def baseRequest (cfg : AuthConfig) (authNet : Option JsErr × Option AuthResp)
    (first second : NetPair) (method : String) (optsHadHeaders : Bool) :
    DispatchRec :=
  match requestAsync first with
  | .ok r => ⟨1, none, .ok r⟩
  | .error f =>
    if f.statusCode == some 401 then
      match Authenticate authNet cfg true with
      | (_, .resolved c2) =>
        if parseOptionsHasHeaders method optsHadHeaders then
          ⟨2, some ("Bearer " ++ jsTokenStr c2.token), liftReq (requestAsync second)⟩
        else
          ⟨1, none, .error (.attachCrash .typeError)⟩
      | (_, .rejected e2) =>
        ⟨1, none, .error (.reauth e2)⟩
    else ⟨1, none, .error (.req f)⟩

/-! ## lib/endpoints.js — the proxy marker step of parseOptions -/

/-- JavaScript String.prototype.replace with a plain string pattern: only
the first occurrence is replaced.  Modelled on character lists. -/
def strReplaceFirst (s pat rep : List Char) : List Char :=
  match s with
  | [] => if pat.isPrefixOf ([] : List Char) then rep else []
  | c :: cs =>
    if pat.isPrefixOf (c :: cs) then rep ++ (c :: cs).drop pat.length
    else c :: strReplaceFirst cs pat rep

/-- The proxy normalization step of parseOptions (lib/endpoints.js
lines 1657-1660; the first copy at lines 897-900 is identical up to the
variable name):

  if (resource.match(/^proxy\//)) {
      resource = "proxy/" + resource.replace("proxy/", "");
  }
-/
def normalizeProxy (resource : List Char) : List Char :=
  if ("proxy/".toList).isPrefixOf resource then
    "proxy/".toList ++ strReplaceFirst resource "proxy/".toList []
  else resource

/-- Number of (possibly overlapping) occurrences of a marker in a path. -/
def countOccs : List Char → List Char → Nat
  | [], _ => 0
  | c :: cs, pat => (if pat.isPrefixOf (c :: cs) then 1 else 0) + countOccs cs pat

/-! ## Theorems -/

/-- C2 (amended): for a decoded MODIFIED frame with object o the data
handler emits exactly one "update" event carrying o, and the tracked
ResourceVersion becomes o.metadata.resourceVersion when that field is
present and non-empty, else (field absent, field empty, or metadata
absent) stays unchanged; ADDED emits "create" and DELETED emits "delete"
with the same version-advance rule; in particular a MODIFIED frame with
object metadata name "a" and resourceVersion "5" produces exactly one
"update" event with that object and advances the tracked version
to "5". -/
theorem watch_modified_update_version_rule :
    (∀ (tracked : Option String) (o : KObject),
      (onFrame tracked ⟨some "MODIFIED", some o⟩).1 = [.update (some o)])
  ∧ (∀ (tracked : Option String) (o : KObject) (m : Metadata) (rv : String),
      o.metadata = some m → m.resourceVersion = some rv → rv ≠ "" →
      (onFrame tracked ⟨some "MODIFIED", some o⟩).2 = some rv)
  ∧ (∀ (tracked : Option String) (o : KObject) (m : Metadata),
      o.metadata = some m → m.resourceVersion = some "" →
      (onFrame tracked ⟨some "MODIFIED", some o⟩).2 = tracked)
  ∧ (∀ (tracked : Option String) (o : KObject) (m : Metadata),
      o.metadata = some m → m.resourceVersion = none →
      (onFrame tracked ⟨some "MODIFIED", some o⟩).2 = tracked)
  ∧ (∀ (tracked : Option String) (o : KObject),
      o.metadata = none →
      (onFrame tracked ⟨some "MODIFIED", some o⟩).2 = tracked)
  ∧ (∀ (tracked : Option String) (ob : Option KObject),
      (onFrame tracked ⟨some "ADDED", ob⟩).1 = [.create ob]
      ∧ (onFrame tracked ⟨some "ADDED", ob⟩).2
          = (onFrame tracked ⟨some "MODIFIED", ob⟩).2
      ∧ (onFrame tracked ⟨some "DELETED", ob⟩).1 = [.delete ob]
      ∧ (onFrame tracked ⟨some "DELETED", ob⟩).2
          = (onFrame tracked ⟨some "MODIFIED", ob⟩).2)
  ∧ onFrame (some "1") ⟨some "MODIFIED", some ⟨some ⟨some "a", some "5"⟩⟩⟩
      = ([.update (some ⟨some ⟨some "a", some "5"⟩⟩)], some "5") := by
  refine ⟨?_, ?_, ?_, ?_, ?_, ?_, rfl⟩
  · intro tracked o
    simp [onFrame]
  · intro tracked o m rv hm hrv hne
    simp [onFrame, advanceRV, hm, hrv, hne]
  · intro tracked o m hm hrv
    simp [onFrame, advanceRV, hm, hrv]
  · intro tracked o m hm hrv
    simp [onFrame, advanceRV, hm, hrv]
  · intro tracked o hm
    simp [onFrame, advanceRV, hm]
  · intro tracked ob
    refine ⟨by simp [onFrame], by simp [onFrame], by simp [onFrame], by simp [onFrame]⟩

/-- C2 witness: instantiation of the version-advance rule at the concrete
MODIFIED frame of the claim. -/
theorem watch_modified_update_version_rule_witness :
    (onFrame (some "1") ⟨some "MODIFIED", some ⟨some ⟨some "a", some "5"⟩⟩⟩).2
      = some "5" :=
  watch_modified_update_version_rule.2.1 (some "1") ⟨some ⟨some "a", some "5"⟩⟩
    ⟨some "a", some "5"⟩ "5" rfl rfl (by decide)

/-- C2 counterexample: the claim as stated fails when the resourceVersion
field is present but the empty string; a MODIFIED frame whose object has
resourceVersion "" leaves the tracked version at "7" (the JavaScript
fallback keeps the old version for any falsy field value), while the claim
requires it to become "". -/
theorem watch_modified_empty_version_counterexample :
    (onFrame (some "7") ⟨some "MODIFIED", some ⟨some ⟨some "a", some ""⟩⟩⟩).2
      = some "7"
  ∧ (some "7" : Option String) ≠ some "" :=
  ⟨rfl, by decide⟩

/-- C3 (amended): the data handler sets the tracked ResourceVersion to each
decoded event's own version whenever that version is present and non-empty,
with no backward-guard; consequently for two consecutive events carrying
versions v1 then v2 the tracked version after processing is v2, and when
v1 is numerically earlier than v2 it is in particular not v1 — but a
stream that delivers a lower version does move the tracked version
backward (see the counterexample). -/
theorem watch_version_follows_event :
    (∀ (tracked : Option String) (o : KObject) (m : Metadata) (v : String),
      o.metadata = some m → m.resourceVersion = some v → v ≠ "" →
      (onFrame tracked ⟨some "MODIFIED", some o⟩).2 = some v)
  ∧ (∀ (tracked : Option String) (o1 o2 : KObject) (m1 m2 : Metadata) (v1 v2 : String),
      o1.metadata = some m1 → m1.resourceVersion = some v1 → v1 ≠ "" →
      o2.metadata = some m2 → m2.resourceVersion = some v2 → v2 ≠ "" →
      processFrames tracked
        [⟨some "MODIFIED", some o1⟩, ⟨some "MODIFIED", some o2⟩] = some v2
      ∧ (rvNum v1 < rvNum v2 →
          processFrames tracked
            [⟨some "MODIFIED", some o1⟩, ⟨some "MODIFIED", some o2⟩] ≠ some v1)) := by
  have hone : ∀ (tracked : Option String) (o : KObject) (m : Metadata) (v : String),
      o.metadata = some m → m.resourceVersion = some v → v ≠ "" →
      (onFrame tracked ⟨some "MODIFIED", some o⟩).2 = some v := by
    intro tracked o m v hm hv hne
    simp [onFrame, advanceRV, hm, hv, hne]
  refine ⟨hone, ?_⟩
  intro tracked o1 o2 m1 m2 v1 v2 hm1 hv1 hne1 hm2 hv2 hne2
  have h2 : processFrames tracked
      [⟨some "MODIFIED", some o1⟩, ⟨some "MODIFIED", some o2⟩] = some v2 := by
    simp only [processFrames, List.foldl]
    exact hone _ o2 m2 v2 hm2 hv2 hne2
  refine ⟨h2, ?_⟩
  intro hlt hcontra
  rw [h2] at hcontra
  have : v2 = v1 := by injection hcontra
  subst this
  exact lt_irrefl _ hlt

/-- C3 witness: a concrete pair of consecutive MODIFIED events with
versions "3" then "5" ends with tracked version "5", not "3". -/
theorem watch_version_follows_event_witness :
    processFrames (some "1")
      [⟨some "MODIFIED", some ⟨some ⟨some "a", some "3"⟩⟩⟩,
       ⟨some "MODIFIED", some ⟨some ⟨some "a", some "5"⟩⟩⟩] = some "5"
  ∧ (rvNum "3" < rvNum "5" →
      processFrames (some "1")
        [⟨some "MODIFIED", some ⟨some ⟨some "a", some "3"⟩⟩⟩,
         ⟨some "MODIFIED", some ⟨some ⟨some "a", some "5"⟩⟩⟩] ≠ some "3") :=
  watch_version_follows_event.2 (some "1") ⟨some ⟨some "a", some "3"⟩⟩
    ⟨some ⟨some "a", some "5"⟩⟩ ⟨some "a", some "3"⟩ ⟨some "a", some "5"⟩ "3" "5"
    rfl rfl (by decide) rfl rfl (by decide)

/-- C3 counterexample: the claim that the tracked ResourceVersion never
moves backward is false — processing a MODIFIED event carrying version "3"
while the tracked version is "5" overwrites the tracked version with "3",
which is numerically earlier. -/
theorem watch_version_moves_backward :
    (onFrame (some "5") ⟨some "MODIFIED", some ⟨some ⟨some "a", some "3"⟩⟩⟩).2
      = some "3"
  ∧ rvNum "3" < rvNum "5" :=
  ⟨rfl, by decide⟩

/-- C4: with retryCount two and three consecutive socket-timeout failures
the session attempts exactly two reconnects and then emits an "error"
event; in general a timeout with a positive remaining budget reconnects
with the budget decremented by one, a timeout with a null budget
reconnects with a null budget, and an exhausted budget or a non-timeout
error emits "error" instead of reconnecting. -/
theorem watch_retry_budget :
    runWatchErrors (some 2)
      [⟨some "ESOCKETTIMEDOUT"⟩, ⟨some "ESOCKETTIMEDOUT"⟩, ⟨some "ESOCKETTIMEDOUT"⟩]
      = (2, true)
  ∧ (∀ (n : Int) (e : JsErr), 0 < n → isTimeoutCode e.code = true →
      onWatchError (some n) e = .reconnect (some (n - 1)))
  ∧ (∀ e : JsErr, isTimeoutCode e.code = true →
      onWatchError none e = .reconnect none)
  ∧ (∀ (n : Int) (e : JsErr), n ≤ 0 →
      onWatchError (some n) e = .emitError)
  ∧ (∀ (rc : Option Int) (e : JsErr), isTimeoutCode e.code = false →
      onWatchError rc e = .emitError) := by
  refine ⟨by decide, ?_, ?_, ?_, ?_⟩
  · intro n e hn ht
    simp [onWatchError, hn, ht]
  · intro e ht
    simp [onWatchError, ht]
  · intro n e hn
    simp [onWatchError, not_lt.mpr hn]
  · intro rc e ht
    cases rc <;> simp [onWatchError, ht]

/-- C4 witness: a timeout with remaining budget two reconnects with
budget one. -/
theorem watch_retry_budget_witness :
    onWatchError (some 2) ⟨some "ETIMEDOUT"⟩ = .reconnect (some (2 - 1)) :=
  watch_retry_budget.2.1 2 ⟨some "ETIMEDOUT"⟩ (by decide) (by decide)

/-- C5: while connected, a data chunk whose accumulated buffer does not
parse emits no event at all, keeps the accumulated bytes as the pending
buffer (so the next chunk is appended to them), and leaves the rest of the
session state — the started flag and the tracked resource version —
untouched; and the pending buffer is cleared only when a parse
succeeds. -/
theorem watch_partial_frame_buffering :
    (∀ (parse : String → Option WatchFrame) (st : WatchState) (data : String),
      parse (concatBuf st.buffer data) = none →
      watchOnData parse st data
        = ({ st with buffer := some (concatBuf st.buffer data) }, []))
  ∧ (∀ (parse : String → Option WatchFrame) (st : WatchState) (data : String),
      (watchOnData parse st data).1.buffer = none →
      parse (concatBuf st.buffer data) ≠ none) := by
  constructor
  · intro parse st data hp
    simp [watchOnData, hp]
  · intro parse st data hb
    cases hp : parse (concatBuf st.buffer data) with
    | none =>
      rw [watchOnData] at hb
      simp [hp] at hb
    | some f =>
      simp [hp]

/-- C5 witness: a parse function that never succeeds leaves two
accumulated chunks buffered, the session started, and the version
unchanged, with no events. -/
theorem watch_partial_frame_buffering_witness :
    watchOnData (fun _ => none) ⟨true, some "par", some "9"⟩ "tial"
      = (⟨true, some "partial", some "9"⟩, []) :=
  watch_partial_frame_buffering.1 (fun _ => none) ⟨true, some "par", some "9"⟩
    "tial" rfl

/-- C6: contrary to the claim, a decoded frame whose type is none of ADDED,
MODIFIED or DELETED emits no "error" event (and no event at all): the
default branch of the switch (lib/watch-emitter.js lines 184-187) first
evaluates "self.log.error(error)" with no "error" identifier in scope, and
the resulting ReferenceError aborts the branch before the
emit("error", updateData.object) statement and is then swallowed by the
catch block at lines 193-199, whose test "! error instanceof SyntaxError"
is always false. -/
theorem watch_unknown_type_no_error_event :
    (∀ (tracked : Option String) (o : Option KObject),
      onFrame tracked ⟨some "BOOKMARK", o⟩ = ([], tracked))
  ∧ onFrame (some "1") ⟨some "BOOKMARK", some ⟨some ⟨some "a", some "2"⟩⟩⟩
      = ([], some "1") := by
  refine ⟨?_, rfl⟩
  intro tracked o
  simp [onFrame]

/-- C7: whenever the authentication exchange is actually required (no
truthy token is held and credentials are configured), the configured host
URL does not use the https scheme and the allowUnsafe override is not set,
the authentication promise rejects with a client error before any network
request is issued — regardless of the flush flag and of whatever the
challenge exchange would have returned, zero requests are sent. -/
theorem auth_insecure_transport_refusal :
    ∀ (net : Option JsErr × Option AuthResp) (config : AuthConfig) (flush : Bool)
      (c : Creds),
      config.auth = some c →
      jsTruthyStr config.token = false →
      config.allowUnsafe = false →
      ("https://".toList).isPrefixOf config.host.toList = false →
      Authenticate net config flush
        = (0, .rejected (.clientError "refusing to authenticate over http")) := by
  intro net config flush c hauth htok hunsafe hhost
  have hhost2 : ¬ (("https://".toList) <+: config.host.toList) := by
    rw [← List.isPrefixOf_iff_prefix, hhost]
    exact Bool.false_ne_true
  unfold Authenticate
  by_cases hf : (flush && config.token.isSome) = true
  · simp only [hf, if_true, hauth]
    simp [getNewToken, jsTruthyStr, hunsafe, errorsThrowReject]
    exact fun hp => absurd hp hhost2
  · simp only [hf, if_false, Bool.false_eq_true, ite_false, hauth]
    simp [getNewToken, htok, hunsafe, errorsThrowReject]
    exact fun hp => absurd hp hhost2

/-- C7 witness: a concrete configuration with credentials, no token, an
http host and no override is refused with zero network requests. -/
theorem auth_insecure_transport_refusal_witness :
    Authenticate (none, none)
      ⟨none, some ⟨"user", "pass"⟩, "http://localhost:8080", false, false⟩ false
      = (0, .rejected (.clientError "refusing to authenticate over http")) :=
  auth_insecure_transport_refusal (none, none)
    ⟨none, some ⟨"user", "pass"⟩, "http://localhost:8080", false, false⟩ false
    ⟨"user", "pass"⟩ rfl rfl rfl (by decide)

/-- C9: contrary to the claim, the error-classification function is not
total over its documented inputs — with a null transport error and an
absent response, GetError evaluates response.statusCode on undefined and
throws a TypeError instead of returning null or a typed error
(lib/errors.js line 30 has no guard on the response argument, although the
JSDoc declares it nullable). -/
theorem getError_crashes_on_absent_response :
    GetError none none = Except.error RuntimeErr.typeError := rfl

/-- C10: when parseToken extracts a candidate token string from the
fragment of the Location header, it returns the token only if its length
is at least 10; an extracted token shorter than 10 characters makes
parseToken throw a TokenParseError even though the header was present and
syntactically parseable. -/
theorem parseToken_min_length :
    ∀ (resp : AuthResp) (h : AuthHeaders) (loc : String) (tk : List Char),
      resp.headers = some h → h.location = some loc → loc ≠ "" →
      extractToken loc = .ok (some tk) →
      (tk.length < 10 → parseToken resp = .parseErr (some loc))
      ∧ (10 ≤ tk.length → parseToken resp = .ok (String.mk tk)) := by
  intro resp h loc tk hh hl hne hx
  constructor
  · intro hshort
    simp [parseToken, hh, hl, hne, hx, hshort]
  · intro hlong
    simp [parseToken, hh, hl, hne, hx, not_lt.mpr hlong]

/-- C10 witness: a ten-character token extracted from a Location fragment
is returned, and a five-character token from the same header shape is
rejected with a TokenParseError. -/
theorem parseToken_min_length_witness :
    parseToken ⟨some 302, .undef,
        some ⟨some "https://h/oauth/token/implicit#access_token=abcdefghij&expires_in=86400"⟩⟩
      = .ok "abcdefghij"
  ∧ parseToken ⟨some 302, .undef,
        some ⟨some "https://h/oauth/token/implicit#access_token=short&expires_in=86400"⟩⟩
      = .parseErr
          (some "https://h/oauth/token/implicit#access_token=short&expires_in=86400") :=
  ⟨(parseToken_min_length
      ⟨some 302, .undef,
        some ⟨some "https://h/oauth/token/implicit#access_token=abcdefghij&expires_in=86400"⟩⟩
      ⟨some "https://h/oauth/token/implicit#access_token=abcdefghij&expires_in=86400"⟩
      "https://h/oauth/token/implicit#access_token=abcdefghij&expires_in=86400"
      ("abcdefghij".toList) rfl rfl (by decide) rfl).2 (by decide),
   (parseToken_min_length
      ⟨some 302, .undef,
        some ⟨some "https://h/oauth/token/implicit#access_token=short&expires_in=86400"⟩⟩
      ⟨some "https://h/oauth/token/implicit#access_token=short&expires_in=86400"⟩
      "https://h/oauth/token/implicit#access_token=short&expires_in=86400"
      ("short".toList) rfl rfl (by decide) rfl).1 (by decide)⟩

/-- Replacing a leading occurrence of a non-empty pattern with rep yields
rep followed by the remainder. -/
theorem strReplaceFirst_prefix (pat t rep : List Char) (h : pat ≠ []) :
    strReplaceFirst (pat ++ t) pat rep = rep ++ t := by
  cases pat with
  | nil => exact absurd rfl h
  | cons c cs =>
    have hpre : (c :: cs).isPrefixOf (c :: (cs ++ t)) = true := by
      rw [List.isPrefixOf_iff_prefix]
      exact ⟨t, by simp⟩
    simp [strReplaceFirst, hpre]

/-- C8 (amended): the proxy normalization step of parseOptions removes the
first occurrence of the "proxy/" marker and re-prepends the marker, which
leaves every path that already begins with the marker unchanged; in
particular the number of marker occurrences is always preserved, so the
result carries the marker exactly once at the start precisely when the
input did — duplicated markers are not collapsed. -/
theorem proxy_normalization_identity :
    (∀ s : List Char,
      ("proxy/".toList).isPrefixOf s = true → normalizeProxy s = s)
  ∧ (∀ s : List Char,
      countOccs (normalizeProxy s) ("proxy/".toList) = countOccs s ("proxy/".toList)) := by
  have hid : ∀ s : List Char,
      ("proxy/".toList).isPrefixOf s = true → normalizeProxy s = s := by
    intro s hs
    obtain ⟨t, rfl⟩ := List.isPrefixOf_iff_prefix.mp hs
    unfold normalizeProxy
    rw [if_pos hs, strReplaceFirst_prefix _ _ _ (by decide)]
    simp
  refine ⟨hid, ?_⟩
  intro s
  by_cases hp : ("proxy/".toList).isPrefixOf s = true
  · rw [hid s hp]
  · unfold normalizeProxy
    rw [if_neg hp]

/-- C8 witness: a path containing the marker exactly once is unchanged by
the normalization step. -/
theorem proxy_normalization_identity_witness :
    normalizeProxy ("proxy/nodes".toList) = "proxy/nodes".toList :=
  proxy_normalization_identity.1 ("proxy/nodes".toList) (by decide)

/-- C8 counterexample: the claim as stated fails — the input
"proxy/proxy/nodes" begins with the marker, yet the normalization step
returns it unchanged with two occurrences of the marker, not one
(JavaScript String.replace with a string pattern removes only the first
occurrence, which the step immediately re-prepends). -/
theorem proxy_double_marker_counterexample :
    normalizeProxy ("proxy/proxy/nodes".toList) = "proxy/proxy/nodes".toList
  ∧ countOccs (normalizeProxy ("proxy/proxy/nodes".toList)) ("proxy/".toList) = 2
  ∧ (2 : Nat) ≠ 1 :=
  ⟨by decide, by decide, by decide⟩

/-- C1: contrary to the claim, a dispatcher call whose first attempt is
classified as a typed error with status exactly 401 is not always retried.
After authenticate(true) resolves, the retry path assigns
opts.headers.Authorization (lib/endpoints.js line 1169); for every
non-PATCH request without caller-supplied headers the opts built by
parseOptions carry no headers object (the token travels in auth.bearer),
so the assignment throws a TypeError, no retry is performed, and the
TypeError — not the original 401 nor a retried outcome — propagates to
the caller.  When a headers object is present (PATCH, or caller-supplied
headers) the fresh bearer token is attached and exactly one retry runs,
whose settlement is returned as-is; a non-401 first error is surfaced with
no retry; and no call ever performs more than two main-request attempts.
-/
theorem baseRequest_401_attach_crash :
    (∀ (cfg : AuthConfig) (authNet : Option JsErr × Option AuthResp)
       (first second : NetPair) (f : ReqFailure) (n : Nat) (c2 : AuthConfig)
       (method : String) (hadHeaders : Bool),
      requestAsync first = .error f → f.statusCode = some 401 →
      Authenticate authNet cfg true = (n, .resolved c2) →
      parseOptionsHasHeaders method hadHeaders = false →
      (baseRequest cfg authNet first second method hadHeaders).attempts = 1
      ∧ (baseRequest cfg authNet first second method hadHeaders).retriedAuthHeader
          = none
      ∧ (baseRequest cfg authNet first second method hadHeaders).result
          = .error (.attachCrash .typeError))
  ∧ (∀ (cfg : AuthConfig) (authNet : Option JsErr × Option AuthResp)
       (first second : NetPair) (f : ReqFailure) (n : Nat) (c2 : AuthConfig)
       (method : String) (hadHeaders : Bool),
      requestAsync first = .error f → f.statusCode = some 401 →
      Authenticate authNet cfg true = (n, .resolved c2) →
      parseOptionsHasHeaders method hadHeaders = true →
      (baseRequest cfg authNet first second method hadHeaders).attempts = 2
      ∧ (baseRequest cfg authNet first second method hadHeaders).retriedAuthHeader
          = some ("Bearer " ++ jsTokenStr c2.token)
      ∧ (baseRequest cfg authNet first second method hadHeaders).result
          = liftReq (requestAsync second))
  ∧ (∀ (cfg : AuthConfig) (authNet : Option JsErr × Option AuthResp)
       (first second : NetPair) (f : ReqFailure) (method : String)
       (hadHeaders : Bool),
      requestAsync first = .error f → f.statusCode ≠ some 401 →
      (baseRequest cfg authNet first second method hadHeaders).attempts = 1
      ∧ (baseRequest cfg authNet first second method hadHeaders).result
          = .error (.req f))
  ∧ (∀ (cfg : AuthConfig) (authNet : Option JsErr × Option AuthResp)
       (first second : NetPair) (method : String) (hadHeaders : Bool),
      (baseRequest cfg authNet first second method hadHeaders).attempts ≤ 2) := by
  refine ⟨?_, ?_, ?_, ?_⟩
  · intro cfg authNet first second f n c2 method hadHeaders h1 h401 hA hH
    simp [baseRequest, h1, h401, hA, hH]
  · intro cfg authNet first second f n c2 method hadHeaders h1 h401 hA hH
    simp [baseRequest, h1, h401, hA, hH]
  · intro cfg authNet first second f method hadHeaders h1 h401
    simp [baseRequest, h1, h401]
  · intro cfg authNet first second method hadHeaders
    unfold baseRequest
    cases h : requestAsync first with
    | ok r => simp
    | error f =>
      by_cases h4 : (f.statusCode == some 401) = true
      · simp only [h4, if_true]
        rcases hA : Authenticate authNet cfg true with ⟨n, res⟩
        cases res with
        | resolved c2 =>
          by_cases hH : parseOptionsHasHeaders method hadHeaders = true
          · simp [hH]
          · simp [hH]
        | rejected e2 => simp
      · simp only [h4, Bool.false_eq_true, if_false]
        simp

/-- C1 witness: with a first attempt rejected 401 and a challenge exchange
yielding the fresh token "freshtok999", an ordinary GET with no
caller-supplied headers crashes the header attach with a TypeError and
performs no retry, while the same call as a PATCH (whose options carry a
headers object) attaches the fresh bearer token and returns the retry
success. -/
theorem baseRequest_401_attach_crash_witness :
    ((baseRequest
        ⟨some "oldtoken99", some ⟨"u", "p"⟩, "https://h", false, false⟩
        (none, some ⟨some 302, JsBody.undef,
          some ⟨some "https://h/x#access_token=freshtok999&y=1"⟩⟩)
        (none, some ⟨some 401, JsBody.undef⟩)
        (none, some ⟨some 200, JsBody.obj none⟩) "GET" false).attempts = 1
      ∧ (baseRequest
        ⟨some "oldtoken99", some ⟨"u", "p"⟩, "https://h", false, false⟩
        (none, some ⟨some 302, JsBody.undef,
          some ⟨some "https://h/x#access_token=freshtok999&y=1"⟩⟩)
        (none, some ⟨some 401, JsBody.undef⟩)
        (none, some ⟨some 200, JsBody.obj none⟩) "GET" false).retriedAuthHeader
          = none
      ∧ (baseRequest
        ⟨some "oldtoken99", some ⟨"u", "p"⟩, "https://h", false, false⟩
        (none, some ⟨some 302, JsBody.undef,
          some ⟨some "https://h/x#access_token=freshtok999&y=1"⟩⟩)
        (none, some ⟨some 401, JsBody.undef⟩)
        (none, some ⟨some 200, JsBody.obj none⟩) "GET" false).result
          = .error (.attachCrash .typeError))
  ∧ ((baseRequest
        ⟨some "oldtoken99", some ⟨"u", "p"⟩, "https://h", false, false⟩
        (none, some ⟨some 302, JsBody.undef,
          some ⟨some "https://h/x#access_token=freshtok999&y=1"⟩⟩)
        (none, some ⟨some 401, JsBody.undef⟩)
        (none, some ⟨some 200, JsBody.obj none⟩) "PATCH" false).attempts = 2
      ∧ (baseRequest
        ⟨some "oldtoken99", some ⟨"u", "p"⟩, "https://h", false, false⟩
        (none, some ⟨some 302, JsBody.undef,
          some ⟨some "https://h/x#access_token=freshtok999&y=1"⟩⟩)
        (none, some ⟨some 401, JsBody.undef⟩)
        (none, some ⟨some 200, JsBody.obj none⟩) "PATCH" false).retriedAuthHeader
          = some "Bearer freshtok999"
      ∧ (baseRequest
        ⟨some "oldtoken99", some ⟨"u", "p"⟩, "https://h", false, false⟩
        (none, some ⟨some 302, JsBody.undef,
          some ⟨some "https://h/x#access_token=freshtok999&y=1"⟩⟩)
        (none, some ⟨some 401, JsBody.undef⟩)
        (none, some ⟨some 200, JsBody.obj none⟩) "PATCH" false).result
          = liftReq (requestAsync (none, some ⟨some 200, JsBody.obj none⟩))) :=
  ⟨baseRequest_401_attach_crash.1
    ⟨some "oldtoken99", some ⟨"u", "p"⟩, "https://h", false, false⟩
    (none, some ⟨some 302, JsBody.undef,
      some ⟨some "https://h/x#access_token=freshtok999&y=1"⟩⟩)
    (none, some ⟨some 401, JsBody.undef⟩)
    (none, some ⟨some 200, JsBody.obj none⟩)
    (.classified (.http 401 JsBody.undef)) 1
    ⟨some "freshtok999", some ⟨"u", "p"⟩, "https://h", false, false⟩
    "GET" false rfl rfl rfl rfl,
   baseRequest_401_attach_crash.2.1
    ⟨some "oldtoken99", some ⟨"u", "p"⟩, "https://h", false, false⟩
    (none, some ⟨some 302, JsBody.undef,
      some ⟨some "https://h/x#access_token=freshtok999&y=1"⟩⟩)
    (none, some ⟨some 401, JsBody.undef⟩)
    (none, some ⟨some 200, JsBody.obj none⟩)
    (.classified (.http 401 JsBody.undef)) 1
    ⟨some "freshtok999", some ⟨"u", "p"⟩, "https://h", false, false⟩
    "PATCH" false rfl rfl rfl rfl⟩
